import Mathlib

/-!
Verification of the counterfactual-frontend rendering and orchestration layer.

The TypeScript components are shallowly embedded as pure Lean functions:
numeric scores (JS numbers) are modelled as rationals, DOM/SVG output as
inductive element lists, and the orchestrator's network effects as explicit
call traces over an abstract backend.
-/

namespace CounterfactualFrontend

/-- `BranchPoint` record, as in the shared interface of the components.
`branch_type` is one of "procedural", "substantive", "evidence", "timing"
in well-formed backend data, but unknown strings are tolerated. -/
structure BranchPoint where
  branch_id : String
  node_id : String
  branch_type : String
  condition : String
  alternatives : List String
  criticality_score : ℚ
deriving DecidableEq, Repr

/-- `Dependency` record from LogicTreeVisualization / CounterfactualDemo. -/
structure Dependency where
  dependency_id : String
  source_node_id : String
  target_node_id : String
  strength : ℚ
  cascade_potential : Bool
deriving DecidableEq, Repr

/-- `Cascade` record from RiskHeatmap / CounterfactualDemo. -/
structure Cascade where
  cascade_id : String
  initiating_branch_id : String
  amplification_chain : List String
  severity_score : ℚ
  preventable : Bool
deriving DecidableEq, Repr

/-- The `attorney_referral` sub-record of an analysis result. -/
structure AttorneyReferral where
  triggered : Bool
  reason : Option String
  referral_links : List String
deriving DecidableEq, Repr

/-- `CounterfactualAnalysis`: the aggregate result returned by the
second backend call and held in UI state. -/
structure CounterfactualAnalysis where
  analysis_id : String
  document_id : String
  branch_points : List BranchPoint
  dependencies : List Dependency
  cascades : List Cascade
  complexity_score : ℚ
  attorney_referral : AttorneyReferral
  educational_disclaimer : String
deriving DecidableEq, Repr

/-! ## RiskHeatmap (src/src/components/RiskHeatmap.tsx)

The `useEffect` body first early-returns when `branchPoints.length === 0`,
otherwise computes `riskData` from branch points and cascades and draws
cells, row labels and a legend. -/

/-- `cascades.filter(c => c.initiating_branch_id === bp.branch_id)`. -/
def relatedCascades (cascades : List Cascade) (bp : BranchPoint) : List Cascade :=
  cascades.filter (fun c => c.initiating_branch_id == bp.branch_id)

/-- `relatedCascades.length > 0 ? Math.max(...relatedCascades.map(c => c.severity_score)) : 0`. -/
def maxSeverity (cascades : List Cascade) (bp : BranchPoint) : ℚ :=
  match relatedCascades cascades bp with
  | [] => 0
  | c :: rest => (rest.map (fun x => x.severity_score)).foldl max c.severity_score

/-- `(bp.criticality_score * 0.6) + (maxSeverity * 0.4)`. -/
def combinedRisk (cascades : List Cascade) (bp : BranchPoint) : ℚ :=
  bp.criticality_score * (6/10) + maxSeverity cascades bp * (4/10)

/-- One entry of the heatmap's `riskData` array. -/
structure RiskCell where
  id : String
  type : String
  risk : ℚ
  cascadeCount : Nat
deriving DecidableEq, Repr

/-- `branchPoints.map(bp => ({ id, type, risk, cascadeCount }))`. -/
def riskData (branchPoints : List BranchPoint) (cascades : List Cascade) :
    List RiskCell :=
  branchPoints.map (fun bp =>
    { id := bp.branch_id
      type := bp.branch_type
      risk := combinedRisk cascades bp
      cascadeCount := (relatedCascades cascades bp).length })

/-- One SVG element drawn by the heatmap effect.  Numeric values are carried
directly; `toFixed` string formatting is elided as pure text presentation. -/
inductive HeatmapElem where
  | cell (x y : ℚ) (risk : ℚ) (typeName : String) (cascadeCount : Nat)
  | cellText (x y : ℚ) (risk : ℚ) (lightText : Bool)
  | typeLabel (y : ℚ) (label : String)
  | legendGradient
  | legendRect
  | legendAxis
  | legendTitle (text : String)
deriving DecidableEq, Repr

/-- First-appearance order of `item.type` keys, as produced by inserting into
a plain JS object (`typeGroups`) and reading `Object.keys`. -/
def typeKeys (cells : List RiskCell) : List String :=
  cells.foldl (fun acc c => if acc.contains c.type then acc else acc ++ [c.type]) []

/-- The group of cells for one type key, in `riskData` order. -/
def typeGroup (cells : List RiskCell) (t : String) : List RiskCell :=
  cells.filter (fun c => c.type == t)

/-- The cell rectangle, value text and row label drawn for one type row. -/
def heatmapRow (cells : List RiskCell) (typeIdx : Nat) (t : String) :
    List HeatmapElem :=
  ((typeGroup cells t).enum.map (fun p =>
    let item := p.2
    let x : ℚ := 40 + p.1 * 40
    let y : ℚ := 40 + typeIdx * 40
    [HeatmapElem.cell x y item.risk t item.cascadeCount,
     HeatmapElem.cellText (x + 20) (y + 20) item.risk (item.risk > 1/2)])).flatten
  ++ [HeatmapElem.typeLabel (40 + typeIdx * 40 + 20) t]

/-- The four legend elements appended after the rows. -/
def heatmapLegend : List HeatmapElem :=
  [HeatmapElem.legendGradient, HeatmapElem.legendRect, HeatmapElem.legendAxis,
   HeatmapElem.legendTitle "Combined Risk Score"]

/-- Everything the RiskHeatmap `useEffect` draws into the SVG.  The effect
body early-returns (drawing nothing) when `branchPoints.length === 0`. -/
def riskHeatmapSvg (branchPoints : List BranchPoint) (cascades : List Cascade) :
    List HeatmapElem :=
  if branchPoints.length = 0 then []
  else
    let cells := riskData branchPoints cascades
    let types := typeKeys cells
    (types.enum.map (fun p => heatmapRow cells p.1 p.2)).flatten ++ heatmapLegend

/-- The static info box below the SVG (always rendered, input-independent;
note there is no conditional empty-state message in this component). -/
def riskHeatmapInfo : List String :=
  ["Risk Score Formula: (Criticality × 0.6) + (Max Cascade Severity × 0.4)",
   "Color Guide: Green = Low Risk • Yellow = Medium Risk • Red = High Risk"]

/-- The full rendered output of RiskHeatmap: SVG elements plus info text. -/
def riskHeatmapComponent (branchPoints : List BranchPoint)
    (cascades : List Cascade) : List HeatmapElem × List String :=
  (riskHeatmapSvg branchPoints cascades, riskHeatmapInfo)

/-! ## BranchPointHighlighter (src/unnamed/part_003)

Renders an explicit empty-state paragraph when the list is empty, otherwise
`branchPoints.sort((a, b) => b.criticality_score - a.criticality_score)`
followed by a `.map` into list items.  `Array.prototype.sort` reorders the
array in place; ECMAScript requires the sort to be stable, and for this
consistent comparator the result is the unique stable non-increasing order
by `criticality_score`, which `List.mergeSort` with the matching boolean
order computes. -/

/-- The comparator order: `a` may precede `b` iff
`b.criticality_score - a.criticality_score <= 0`. -/
def critDescLE (a b : BranchPoint) : Bool :=
  decide (b.criticality_score ≤ a.criticality_score)

/-- Result (and in-place final state) of the `.sort(...)` call. -/
def sortedBranchPoints (branchPoints : List BranchPoint) : List BranchPoint :=
  branchPoints.mergeSort critDescLE

/-- `colors[type] || '#999'` lookup table shared by the components. -/
def getBranchTypeColor (t : String) : String :=
  if t == "procedural" then "#667eea"
  else if t == "substantive" then "#764ba2"
  else if t == "evidence" then "#f093fb"
  else if t == "timing" then "#4facfe"
  else "#999"

/-- `icons[type] || '•'` lookup table. -/
def getBranchTypeIcon (t : String) : String :=
  if t == "procedural" then "⚖️"
  else if t == "substantive" then "📋"
  else if t == "evidence" then "🔍"
  else if t == "timing" then "⏰"
  else "•"

/-- One rendered branch-point list item. -/
structure RenderedBranchPoint where
  key : String
  icon : String
  color : String
  branch_type : String
  criticality : ℚ
  condition : String
  alternatives : List String
deriving DecidableEq, Repr

/-- The JSX produced for one branch point. -/
def renderBranchPoint (bp : BranchPoint) : RenderedBranchPoint :=
  { key := bp.branch_id
    icon := getBranchTypeIcon bp.branch_type
    color := getBranchTypeColor bp.branch_type
    branch_type := bp.branch_type
    criticality := bp.criticality_score
    condition := bp.condition
    alternatives := bp.alternatives }

/-- The component output: either the explicit empty-state paragraph or the
sorted, mapped item list. -/
inductive HighlighterOutput where
  | noBranches (message : String)
  | items (rendered : List RenderedBranchPoint)
deriving DecidableEq, Repr

/-- The fixed empty-state text. -/
def noBranchPointsMessage : String := "No branch points detected in this narrative."

/-- `branchPoints.length === 0 ? <p>...</p> : branchPoints.sort(...).map(...)`. -/
def branchPointHighlighter (branchPoints : List BranchPoint) : HighlighterOutput :=
  if branchPoints.length = 0 then .noBranches noBranchPointsMessage
  else .items ((sortedBranchPoints branchPoints).map renderBranchPoint)

/-- State of the caller's `branchPoints` array after the component renders:
in the non-empty branch `Array.prototype.sort` has reordered it in place. -/
def branchPointsAfterRender (branchPoints : List BranchPoint) : List BranchPoint :=
  if branchPoints.length = 0 then branchPoints else sortedBranchPoints branchPoints

/-! ## LogicTreeVisualization (src/unnamed/part_001, first component)

Builds fresh node objects from the branch points (initial positions come
from two `Math.random()` draws per node, modelled as streams `rx ry`),
then links from the dependencies, dropping any dependency whose source or
target id resolves to no node. -/

/-- A visual graph node.  `x`/`y` (and the d3 simulation's later velocity
and fixed-position fields) live only on these fresh objects, never on the
`BranchPoint` records. -/
structure GraphNode where
  id : String
  label : String
  criticality : ℚ
  type : String
  x : ℚ
  y : ℚ
deriving DecidableEq, Repr

/-- A visual edge. -/
structure GraphLink where
  source : String
  target : String
  strength : ℚ
  cascade : Bool
deriving DecidableEq, Repr

/-- `branchPoints.map(bp => ({ id, label, criticality, type, x, y }))` with
`x = Math.random() * (width - 100) + 50` etc.; `rx i`, `ry i` stand for the
two random draws made for the node at index `i`. -/
def nodeOfIndexed (rx ry : Nat → ℚ) (p : Nat × BranchPoint) : GraphNode :=
  { id := p.2.node_id
    label := p.2.condition.take 30 ++ "..."
    criticality := p.2.criticality_score
    type := p.2.branch_type
    x := rx p.1 * (600 - 100) + 50
    y := ry p.1 * (400 - 100) + 50 }

def logicTreeNodes (rx ry : Nat → ℚ) (branchPoints : List BranchPoint) :
    List GraphNode :=
  branchPoints.enum.map (nodeOfIndexed rx ry)

/-- `dependencies.map(dep => ...).filter(link => link !== null)`: each
dependency resolves its endpoints with `nodes.find(...)`; both found gives
one link, otherwise `null`, filtered out. -/
def linkOfDependencyIn (nodes : List GraphNode) (dep : Dependency) :
    Option GraphLink :=
  match nodes.find? (fun n => n.id == dep.source_node_id),
        nodes.find? (fun n => n.id == dep.target_node_id) with
  | some s, some t =>
      some { source := s.id, target := t.id, strength := dep.strength,
             cascade := dep.cascade_potential }
  | _, _ => none

def logicTreeLinks (nodes : List GraphNode) (dependencies : List Dependency) :
    List GraphLink :=
  dependencies.filterMap (linkOfDependencyIn nodes)

/-- Spec-side description of a drawable dependency: both endpoint ids match
some branch point's `node_id`.  Used to compare the source's `find?`-based
link construction against the spec's wording. -/
def dependencyResolvable (branchPoints : List BranchPoint) (dep : Dependency) :
    Bool :=
  branchPoints.any (fun bp => bp.node_id == dep.source_node_id) &&
  branchPoints.any (fun bp => bp.node_id == dep.target_node_id)

/-- Spec-side link record for a resolvable dependency (the node found for an
endpoint has exactly that endpoint's id). -/
def linkOfDependency (dep : Dependency) : GraphLink :=
  { source := dep.source_node_id, target := dep.target_node_id,
    strength := dep.strength, cascade := dep.cascade_potential }

/-- `attr('opacity', d => 0.5 + (d.criticality * 0.5))` on the node circles. -/
def nodeOpacity (criticality : ℚ) : ℚ :=
  1/2 + criticality * (1/2)

/-! ## CounterfactualDemo orchestrator (src/unnamed/part_001, second file)

`handleAnalyze` validates the input, then awaits
`POST /api/cir/extract` and `POST /api/counterfactual/analyze` in sequence,
commits the result (opening the referral modal when triggered), reports
failures via `err.response?.data?.detail || 'Analysis failed. ...'`, and
clears the loading flag in `finally`.  Effects are made explicit: the run
returns the new state, the ordered list of HTTP calls issued, and the
ordered list of `setLoading` writes. -/

/-- Whitespace for JS `String.prototype.trim` (the common code points;
the full set also has further exotic Unicode spaces treated identically). -/
def isJSWhitespace (c : Char) : Bool :=
  c == ' ' || c == '\t' || c == '\n' || c == '\r' ||
  c == '\x0b' || c == '\x0c' || c == Char.ofNat 160

/-- `inputText.trim()`: strip leading and trailing whitespace. -/
def jsTrim (t : String) : String :=
  String.mk
    (((t.toList.dropWhile isJSWhitespace).reverse.dropWhile isJSWhitespace).reverse)

/-- The opaque CIR graph returned by the extract call and forwarded
verbatim; its carrier is irrelevant to the frontend. -/
structure CirGraph where
  payload : String
deriving DecidableEq, Repr

/-- Options object of the extract request body. -/
structure ExtractOptions where
  extract_legal_implications : Bool
  include_confidence : Bool
deriving DecidableEq, Repr

/-- Body of `POST {base}/api/cir/extract`. -/
structure ExtractRequest where
  narrative : String
  options : ExtractOptions
deriving DecidableEq, Repr

/-- Options object of the analyze request body. -/
structure AnalyzeOptions where
  include_visualizations : Bool
  max_branch_points : Nat
  max_cascades : Nat
  complexity_threshold : ℚ
deriving DecidableEq, Repr

/-- Body of `POST {base}/api/counterfactual/analyze`. -/
structure AnalyzeRequest where
  cir_graph : CirGraph
  options : AnalyzeOptions
deriving DecidableEq, Repr

/-- The extract request built from the current input text. -/
def extractRequest (inputText : String) : ExtractRequest :=
  { narrative := inputText
    options := { extract_legal_implications := true, include_confidence := true } }

/-- The analyze request built from the extract response. -/
def analyzeRequest (cir : CirGraph) : AnalyzeRequest :=
  { cir_graph := cir
    options := { include_visualizations := true, max_branch_points := 10,
                 max_cascades := 5, complexity_threshold := 7/10 } }

/-- A failed call, carrying `err.response?.data?.detail` when the response
had the conventional nested field (`none` models a missing response, a
missing field, or a non-string value). -/
structure ApiError where
  detail : Option String
deriving DecidableEq, Repr

/-- One HTTP call issued by the orchestrator, with its body. -/
inductive ApiCall where
  | extractCall (body : ExtractRequest)
  | analyzeCall (body : AnalyzeRequest)
deriving DecidableEq, Repr

/-- The backend, abstracted as response functions for the two endpoints. -/
structure Backend where
  extract : ExtractRequest → Except ApiError CirGraph
  analyze : AnalyzeRequest → Except ApiError CounterfactualAnalysis

/-- The orchestrator's state hooks. -/
structure DemoState where
  inputText : String
  analysis : Option CounterfactualAnalysis
  loading : Bool
  error : Option String
  showAttorneyModal : Bool
deriving DecidableEq, Repr

/-- The fixed local validation message. -/
def validationMessage : String := "Please enter a legal narrative to analyze"

/-- The generic failure fallback. -/
def genericFailureMessage : String := "Analysis failed. Please try again."

/-- `err.response?.data?.detail || 'Analysis failed. Please try again.'`
(JS `||` falls back on a missing or empty-string detail). -/
def errorMessageOf (e : ApiError) : String :=
  match e.detail with
  | some m => if m = "" then genericFailureMessage else m
  | none => genericFailureMessage

/-- Result of one `handleAnalyze` run: final state, issued calls in order,
and the sequence of `setLoading` writes. -/
structure AnalyzeRun where
  state : DemoState
  calls : List ApiCall
  loadingSets : List Bool
deriving DecidableEq, Repr

/-- The `handleAnalyze` handler.  Mirrors the source control flow:
early return on blank input; `setLoading(true); setError(null)`; the two
awaited posts; on success `setAnalysis(result)` and conditionally
`setShowAttorneyModal(true)`; on either failure `setError(...)`; and
`setLoading(false)` in `finally`. -/
def handleAnalyze (backend : Backend) (s : DemoState) : AnalyzeRun :=
  if jsTrim s.inputText = "" then
    { state := { s with error := some validationMessage }, calls := [], loadingSets := [] }
  else
    let s1 : DemoState := { s with loading := true, error := none }
    let req1 := extractRequest s.inputText
    match backend.extract req1 with
    | .error e =>
        { state := { s1 with error := some (errorMessageOf e), loading := false }
          calls := [.extractCall req1]
          loadingSets := [true, false] }
    | .ok cir =>
        let req2 := analyzeRequest cir
        match backend.analyze req2 with
        | .error e =>
            { state := { s1 with error := some (errorMessageOf e), loading := false }
              calls := [.extractCall req1, .analyzeCall req2]
              loadingSets := [true, false] }
        | .ok result =>
            { state := { s1 with
                analysis := some result
                showAttorneyModal :=
                  if result.attorney_referral.triggered then true
                  else s1.showAttorneyModal
                loading := false }
              calls := [.extractCall req1, .analyzeCall req2]
              loadingSets := [true, false] }

/-! ## Concrete sample data for witnesses and counterexamples -/

/-- A low-criticality branch point. -/
def bpLow : BranchPoint :=
  { branch_id := "b1", node_id := "n1", branch_type := "procedural",
    condition := "notice arrived late", alternatives := ["file earlier"],
    criticality_score := 1/5 }

/-- A high-criticality branch point. -/
def bpHigh : BranchPoint :=
  { branch_id := "b2", node_id := "n2", branch_type := "timing",
    condition := "missed the hearing", alternatives := ["request continuance"],
    criticality_score := 9/10 }

/-- A mid-criticality branch point sharing `bpLow`'s score for tie tests. -/
def bpMid : BranchPoint :=
  { branch_id := "b3", node_id := "n3", branch_type := "evidence",
    condition := "records not submitted", alternatives := [],
    criticality_score := 1/5 }

/-- The spec's worked example: criticality exactly one half, one associated
cascade of severity one. -/
def bpHalf : BranchPoint :=
  { branch_id := "b1", node_id := "n4", branch_type := "substantive",
    condition := "motion not filed", alternatives := [],
    criticality_score := 1/2 }

/-- A cascade initiated by `bpLow` and `bpHalf`, with maximal severity. -/
def cascadeOne : Cascade :=
  { cascade_id := "c1", initiating_branch_id := "b1",
    amplification_chain := ["missed hearing", "default judgment"],
    severity_score := 1, preventable := true }

/-- A sample analysis result with the referral triggered. -/
def sampleAnalysis : CounterfactualAnalysis :=
  { analysis_id := "a1", document_id := "d1",
    branch_points := [bpLow, bpHigh], dependencies := [], cascades := [cascadeOne],
    complexity_score := 4/5,
    attorney_referral := { triggered := true, reason := some "high complexity",
                           referral_links := [] },
    educational_disclaimer := "educational use only" }

/-- A deterministic backend that succeeds on both calls. -/
def okBackend : Backend :=
  { extract := fun req => .ok { payload := req.narrative }
    analyze := fun _ => .ok sampleAnalysis }

/-- A backend whose extract call fails with a structured detail message. -/
def failingBackend : Backend :=
  { extract := fun _ => .error { detail := some "backend unavailable" }
    analyze := fun _ => .ok sampleAnalysis }

/-- A starting state with a pending input and a previously held result. -/
def startState : DemoState :=
  { inputText := "I missed my hearing after surgery.", analysis := some sampleAnalysis,
    loading := false, error := none, showAttorneyModal := false }

/-- A state whose input is whitespace-only. -/
def blankState : DemoState :=
  { inputText := "  \t ", analysis := some sampleAnalysis,
    loading := false, error := none, showAttorneyModal := false }

/-! Helper lemmas about `List.foldl max`, used for `Math.max(...)`. -/

theorem foldl_max_le_iff (l : List ℚ) (init b : ℚ) :
    l.foldl max init ≤ b ↔ init ≤ b ∧ ∀ x ∈ l, x ≤ b := by
  induction l generalizing init with
  | nil => simp
  | cons a t ih =>
      simp only [List.foldl_cons, ih, max_le_iff, List.mem_cons]
      constructor
      · rintro ⟨⟨h1, h2⟩, h3⟩
        exact ⟨h1, fun x hx => by rcases hx with rfl | hx
                                  · exact h2
                                  · exact h3 x hx⟩
      · rintro ⟨h1, h2⟩
        exact ⟨⟨h1, h2 a (Or.inl rfl)⟩, fun x hx => h2 x (Or.inr hx)⟩

theorem le_foldl_max_init (l : List ℚ) (init : ℚ) :
    init ≤ l.foldl max init :=
  ((foldl_max_le_iff l init (l.foldl max init)).mp le_rfl).1

theorem le_foldl_max_of_mem (l : List ℚ) (init x : ℚ) (hx : x ∈ l) :
    x ≤ l.foldl max init :=
  ((foldl_max_le_iff l init (l.foldl max init)).mp le_rfl).2 x hx

theorem foldl_max_eq_init_or_mem (l : List ℚ) (init : ℚ) :
    l.foldl max init = init ∨ l.foldl max init ∈ l := by
  induction l generalizing init with
  | nil => exact Or.inl rfl
  | cons a t ih =>
      simp only [List.foldl_cons]
      rcases ih (max init a) with h | h
      · rcases max_cases init a with ⟨hm, _⟩ | ⟨hm, _⟩
        · exact Or.inl (h.trans hm)
        · exact Or.inr (by rw [h, hm]; exact List.mem_cons_self a t)
      · exact Or.inr (List.mem_cons_of_mem a h)

/-- Membership in `relatedCascades` unfolded. -/
theorem mem_relatedCascades (cascades : List Cascade) (bp : BranchPoint)
    (c : Cascade) :
    c ∈ relatedCascades cascades bp ↔
      c ∈ cascades ∧ c.initiating_branch_id = bp.branch_id := by
  simp [relatedCascades, List.mem_filter]

/-- C1: for every branch point, the heatmap's derived `combinedRisk` equals
`0.6 * criticality_score + 0.4 * maxCascadeSeverity`, where
`maxCascadeSeverity` is the maximum `severity_score` over cascades whose
`initiating_branch_id` equals the branch point's `branch_id` (an upper bound
that is attained), and `0` when no such cascade exists, in which case
`combinedRisk = criticality_score * 0.6`; and `riskData` assigns exactly
this risk to every branch point. -/
theorem riskHeatmap_combinedRisk_spec (cascades : List Cascade) (bp : BranchPoint) :
    combinedRisk cascades bp
        = (6/10) * bp.criticality_score + (4/10) * maxSeverity cascades bp
      ∧ (∀ c ∈ cascades, c.initiating_branch_id = bp.branch_id →
          c.severity_score ≤ maxSeverity cascades bp)
      ∧ ((∃ c ∈ cascades, c.initiating_branch_id = bp.branch_id) →
          ∃ c ∈ cascades, c.initiating_branch_id = bp.branch_id ∧
            maxSeverity cascades bp = c.severity_score)
      ∧ ((∀ c ∈ cascades, c.initiating_branch_id ≠ bp.branch_id) →
          combinedRisk cascades bp = bp.criticality_score * (6/10))
      ∧ ∀ (branchPoints : List BranchPoint),
          (riskData branchPoints cascades).map RiskCell.risk
            = branchPoints.map (combinedRisk cascades) := by
  refine ⟨by unfold combinedRisk; ring, ?_, ?_, ?_, ?_⟩
  · intro c hc hid
    have hmem : c ∈ relatedCascades cascades bp :=
      (mem_relatedCascades cascades bp c).mpr ⟨hc, hid⟩
    cases hrel : relatedCascades cascades bp with
    | nil => rw [hrel] at hmem; cases hmem
    | cons c0 rest =>
        rw [hrel] at hmem
        simp only [maxSeverity, hrel]
        rcases List.mem_cons.mp hmem with rfl | hm
        · exact le_foldl_max_init _ _
        · exact le_foldl_max_of_mem _ _ _
            (List.mem_map_of_mem (fun x => x.severity_score) hm)
  · rintro ⟨c, hc, hid⟩
    have hmem : c ∈ relatedCascades cascades bp :=
      (mem_relatedCascades cascades bp c).mpr ⟨hc, hid⟩
    cases hrel : relatedCascades cascades bp with
    | nil => rw [hrel] at hmem; cases hmem
    | cons c0 rest =>
        simp only [maxSeverity, hrel]
        rcases foldl_max_eq_init_or_mem
            (rest.map (fun x => x.severity_score)) c0.severity_score with h | h
        · have h0 : c0 ∈ relatedCascades cascades bp := by
            rw [hrel]; exact List.mem_cons_self c0 rest
          rcases (mem_relatedCascades cascades bp c0).mp h0 with ⟨h1, h2⟩
          exact ⟨c0, h1, h2, h⟩
        · rcases List.mem_map.mp h with ⟨c1, hc1, heq⟩
          have h0 : c1 ∈ relatedCascades cascades bp := by
            rw [hrel]; exact List.mem_cons_of_mem c0 hc1
          rcases (mem_relatedCascades cascades bp c1).mp h0 with ⟨h1, h2⟩
          exact ⟨c1, h1, h2, heq.symm⟩
  · intro hnone
    have hrel : relatedCascades cascades bp = [] := by
      rw [List.eq_nil_iff_forall_not_mem]
      intro c hmem
      rcases (mem_relatedCascades cascades bp c).mp hmem with ⟨h1, h2⟩
      exact hnone c h1 h2
    unfold combinedRisk
    simp only [maxSeverity, hrel]
    ring
  · intro branchPoints
    simp [riskData, List.map_map, Function.comp]

/-- Witness for C1 at concrete inputs: a branch point with no associated
cascade, and the spec's worked example `0.5 * 0.6 + 1.0 * 0.4 = 0.7`. -/
theorem riskHeatmap_combinedRisk_witness :
    combinedRisk [] bpHigh = bpHigh.criticality_score * (6/10)
      ∧ combinedRisk [cascadeOne] bpHalf = 7/10 := by
  constructor
  · exact (riskHeatmap_combinedRisk_spec [] bpHigh).2.2.2.1
      (by intro c hc; cases hc)
  · have h1 : maxSeverity [cascadeOne] bpHalf = 1 := by
      simp [maxSeverity, relatedCascades, cascadeOne, bpHalf]
    unfold combinedRisk
    rw [h1]
    norm_num [bpHalf]

/-- C10: when given an empty branch-point list, the RiskHeatmap effect
draws nothing at all — no cells, no row labels, no legend — and the
component shows no explicit empty-state message: its non-SVG text is the
same fixed info strings as for every other input. -/
theorem riskHeatmap_empty_renders_nothing :
    ∀ (cascades : List Cascade),
      (riskHeatmapComponent [] cascades).1 = []
        ∧ ∀ (branchPoints : List BranchPoint) (otherCascades : List Cascade),
            (riskHeatmapComponent branchPoints otherCascades).2
              = (riskHeatmapComponent [] cascades).2 := by
  intro cascades
  exact ⟨by simp [riskHeatmapComponent, riskHeatmapSvg], fun _ _ => rfl⟩

/-! Properties of the stable sort used by BranchPointHighlighter. -/

theorem critDescLE_trans (a b c : BranchPoint) :
    critDescLE a b → critDescLE b c → critDescLE a c := by
  simp only [critDescLE, decide_eq_true_eq]
  exact fun h1 h2 => le_trans h2 h1

theorem critDescLE_total (a b : BranchPoint) :
    critDescLE a b || critDescLE b a := by
  simp only [critDescLE, Bool.or_eq_true, decide_eq_true_eq]
  exact le_total b.criticality_score a.criticality_score

theorem sortedBranchPoints_pairwise (branchPoints : List BranchPoint) :
    (sortedBranchPoints branchPoints).Pairwise
      (fun a b => b.criticality_score ≤ a.criticality_score) := by
  have h := List.sorted_mergeSort critDescLE_trans critDescLE_total branchPoints
  exact h.imp (fun hab => by simpa [critDescLE] using hab)

theorem sortedBranchPoints_perm (branchPoints : List BranchPoint) :
    List.Perm (sortedBranchPoints branchPoints) branchPoints :=
  List.mergeSort_perm branchPoints critDescLE

theorem sortedBranchPoints_stable (branchPoints : List BranchPoint) (r : ℚ) :
    (sortedBranchPoints branchPoints).filter
        (fun bp => bp.criticality_score == r)
      = branchPoints.filter (fun bp => bp.criticality_score == r) := by
  have hall : ∀ a ∈ branchPoints.filter
      (fun bp => bp.criticality_score == r), a.criticality_score = r := by
    intro a ha
    have := List.of_mem_filter ha
    simpa [beq_iff_eq] using this
  have hc : (branchPoints.filter (fun bp => bp.criticality_score == r)).Pairwise
      (fun a b => critDescLE a b) := by
    apply List.pairwise_of_forall_mem_list
    intro a ha b hb
    simp only [critDescLE, decide_eq_true_eq, hall a ha, hall b hb, le_refl]
  have hsub : List.Sublist
      (branchPoints.filter (fun bp => bp.criticality_score == r))
      (sortedBranchPoints branchPoints) :=
    List.sublist_mergeSort critDescLE_trans critDescLE_total hc
      (List.filter_sublist branchPoints)
  have h2 : List.Sublist
      (branchPoints.filter (fun bp => bp.criticality_score == r))
      ((sortedBranchPoints branchPoints).filter
        (fun bp => bp.criticality_score == r)) := by
    have h3 := hsub.filter (fun bp => bp.criticality_score == r)
    have h4 : (branchPoints.filter (fun bp => bp.criticality_score == r)).filter
          (fun bp => bp.criticality_score == r)
        = branchPoints.filter (fun bp => bp.criticality_score == r) := by
      apply List.filter_eq_self.mpr
      intro a ha
      exact (List.mem_filter.mp ha).2
    rwa [h4] at h3
  have hlen : ((sortedBranchPoints branchPoints).filter
        (fun bp => bp.criticality_score == r)).length
      = (branchPoints.filter (fun bp => bp.criticality_score == r)).length :=
    ((sortedBranchPoints_perm branchPoints).filter
      (fun bp => bp.criticality_score == r)).length_eq
  exact (h2.eq_of_length hlen.symm).symm

/-- C7: BranchPointHighlighter renders an explicit empty-state for the
empty list; otherwise it renders the branch points in non-increasing
`criticality_score` order, and the ordering is stable — the elements at
any fixed score keep their input relative order. -/
theorem branchPointHighlighter_sorted_stable :
    ∀ (branchPoints : List BranchPoint),
      (branchPoints = [] →
        branchPointHighlighter branchPoints
          = HighlighterOutput.noBranches noBranchPointsMessage)
      ∧ (branchPoints ≠ [] →
        branchPointHighlighter branchPoints
          = HighlighterOutput.items
              ((sortedBranchPoints branchPoints).map renderBranchPoint))
      ∧ (sortedBranchPoints branchPoints).Pairwise
          (fun a b => b.criticality_score ≤ a.criticality_score)
      ∧ ∀ r : ℚ,
          (sortedBranchPoints branchPoints).filter
              (fun bp => bp.criticality_score == r)
            = branchPoints.filter (fun bp => bp.criticality_score == r) := by
  intro branchPoints
  refine ⟨?_, ?_, sortedBranchPoints_pairwise branchPoints,
    sortedBranchPoints_stable branchPoints⟩
  · intro h; subst h; rfl
  · intro h
    have hlen : branchPoints.length ≠ 0 := by
      simpa [List.length_eq_zero] using h
    simp [branchPointHighlighter, hlen]

/-- Witness for C7: the empty-state case, and stability at the tied score
of `bpLow` and `bpMid` in a concrete three-element list. -/
theorem branchPointHighlighter_sorted_stable_witness :
    branchPointHighlighter [] = HighlighterOutput.noBranches noBranchPointsMessage
      ∧ (sortedBranchPoints [bpLow, bpHigh, bpMid]).filter
          (fun bp => bp.criticality_score == (1/5 : ℚ))
        = [bpLow, bpMid] := by
  constructor
  · exact (branchPointHighlighter_sorted_stable []).1 rfl
  · have h := (branchPointHighlighter_sorted_stable [bpLow, bpHigh, bpMid]).2.2.2 (1/5)
    rw [h]
    norm_num [List.filter_cons, bpLow, bpHigh, bpMid, beq_iff_eq]

/-- C2 (code bug): on the concrete input `[bpLow, bpHigh]` the
`branchPoints.sort(...)` call inside BranchPointHighlighter reorders the
caller's props array in place, so the branch-point list is not identical
before and after rendering. -/
theorem branchPointHighlighter_sort_mutates_props :
    branchPointsAfterRender [bpLow, bpHigh] ≠ [bpLow, bpHigh] := by
  intro h
  have h2 : sortedBranchPoints [bpLow, bpHigh] = [bpLow, bpHigh] := by
    simpa [branchPointsAfterRender] using h
  have h3 := sortedBranchPoints_pairwise [bpLow, bpHigh]
  rw [h2] at h3
  have h4 := (List.pairwise_cons.mp h3).1 bpHigh (List.mem_singleton.mpr rfl)
  norm_num [bpLow, bpHigh] at h4

/-! Node lookup used by the link construction. -/

theorem find?_enumFrom_nodes (rx ry : Nat → ℚ) (x : String) :
    ∀ (i : Nat) (branchPoints : List BranchPoint),
      (((branchPoints.enumFrom i).map (nodeOfIndexed rx ry)).find?
          (fun n => n.id == x)).isSome
        = branchPoints.any (fun bp => bp.node_id == x) := by
  intro i branchPoints
  induction branchPoints generalizing i with
  | nil => rfl
  | cons bp t ih =>
      simp only [List.enumFrom, List.map_cons, List.any_cons]
      cases h : bp.node_id == x with
      | true => simp [List.find?_cons, nodeOfIndexed, h]
      | false =>
          have ih2 := ih (i + 1)
          simp only [List.find?_map] at ih2
          simp [List.find?_cons, nodeOfIndexed, h, List.find?_map, ih2]

theorem find?_logicTreeNodes_isSome (rx ry : Nat → ℚ) (x : String)
    (branchPoints : List BranchPoint) :
    ((logicTreeNodes rx ry branchPoints).find? (fun n => n.id == x)).isSome
      = branchPoints.any (fun bp => bp.node_id == x) := by
  unfold logicTreeNodes List.enum
  exact find?_enumFrom_nodes rx ry x 0 branchPoints

theorem find?_logicTreeNodes_id (rx ry : Nat → ℚ) (x : String)
    (branchPoints : List BranchPoint) (n : GraphNode)
    (h : (logicTreeNodes rx ry branchPoints).find? (fun m => m.id == x) = some n) :
    n.id = x := by
  have := List.find?_some h
  simpa [beq_iff_eq] using this

/-- The per-dependency link construction agrees with the spec-side
description: a link exactly when both endpoints resolve, with the
dependency's own endpoint ids. -/
theorem linkOfDependencyIn_eq (rx ry : Nat → ℚ)
    (branchPoints : List BranchPoint) (dep : Dependency) :
    linkOfDependencyIn (logicTreeNodes rx ry branchPoints) dep
      = if dependencyResolvable branchPoints dep
        then some (linkOfDependency dep) else none := by
  unfold linkOfDependencyIn dependencyResolvable
  cases hs : (logicTreeNodes rx ry branchPoints).find?
      (fun n => n.id == dep.source_node_id) with
  | none =>
      have h1 : branchPoints.any (fun bp => bp.node_id == dep.source_node_id)
          = false := by
        rw [← find?_logicTreeNodes_isSome rx ry dep.source_node_id branchPoints, hs]
        rfl
      simp [h1]
  | some s =>
      have h1 : branchPoints.any (fun bp => bp.node_id == dep.source_node_id)
          = true := by
        rw [← find?_logicTreeNodes_isSome rx ry dep.source_node_id branchPoints, hs]
        rfl
      cases ht : (logicTreeNodes rx ry branchPoints).find?
          (fun n => n.id == dep.target_node_id) with
      | none =>
          have h2 : branchPoints.any (fun bp => bp.node_id == dep.target_node_id)
              = false := by
            rw [← find?_logicTreeNodes_isSome rx ry dep.target_node_id branchPoints,
              ht]
            rfl
          simp [h1, h2]
      | some tn =>
          have h2 : branchPoints.any (fun bp => bp.node_id == dep.target_node_id)
              = true := by
            rw [← find?_logicTreeNodes_isSome rx ry dep.target_node_id branchPoints,
              ht]
            rfl
          have hsid := find?_logicTreeNodes_id rx ry dep.source_node_id
            branchPoints s hs
          have htid := find?_logicTreeNodes_id rx ry dep.target_node_id
            branchPoints tn ht
          simp [h1, h2, linkOfDependency, hsid, htid]

/-- C8: a dependency whose source or target id matches no branch point's
`node_id` produces no visual edge (and the construction is total, so no
error is raised); every other dependency produces exactly one edge — the
link list is exactly the resolvable dependencies, mapped one-to-one. -/
theorem logicTree_drops_unresolvable_dependencies (rx ry : Nat → ℚ)
    (branchPoints : List BranchPoint) (dependencies : List Dependency) :
    logicTreeLinks (logicTreeNodes rx ry branchPoints) dependencies
        = (dependencies.filter (dependencyResolvable branchPoints)).map
            linkOfDependency
      ∧ (logicTreeLinks (logicTreeNodes rx ry branchPoints) dependencies).length
        = (dependencies.filter (dependencyResolvable branchPoints)).length := by
  have hmain : logicTreeLinks (logicTreeNodes rx ry branchPoints) dependencies
      = (dependencies.filter (dependencyResolvable branchPoints)).map
          linkOfDependency := by
    induction dependencies with
    | nil => rfl
    | cons dep t ih =>
        simp only [logicTreeLinks, List.filterMap_cons] at ih ⊢
        rw [linkOfDependencyIn_eq, List.filter_cons]
        cases h : dependencyResolvable branchPoints dep with
        | true => simp [h, ih]
        | false => simp [h, ih]
  exact ⟨hmain, by rw [hmain, List.length_map]⟩

/-- C9: the node opacity `0.5 + criticality * 0.5` is monotone (indeed
strictly monotone) in the criticality score on `[0, 1]` and strictly
positive at criticality `0`: low criticality never renders fully
transparent. -/
theorem nodeOpacity_monotone_positive :
    ∀ c1 c2 : ℚ, 0 ≤ c1 → c1 ≤ c2 → c2 ≤ 1 →
      nodeOpacity c1 ≤ nodeOpacity c2
        ∧ (c1 < c2 → nodeOpacity c1 < nodeOpacity c2)
        ∧ 0 < nodeOpacity 0 := by
  intro c1 c2 h0 h12 h1
  refine ⟨?_, ?_, by norm_num [nodeOpacity]⟩
  · unfold nodeOpacity; linarith
  · intro h; unfold nodeOpacity; linarith

/-- Witness for C9 at the endpoints of the score range. -/
theorem nodeOpacity_monotone_positive_witness :
    nodeOpacity 0 ≤ nodeOpacity 1 ∧ 0 < nodeOpacity 0 := by
  have h := nodeOpacity_monotone_positive 0 1 (by norm_num) (by norm_num)
    (by norm_num)
  exact ⟨h.1, h.2.2⟩

/-! Orchestrator lemmas. -/

/-- A whitespace-only input trims to the empty string. -/
theorem jsTrim_eq_empty_of_all_ws (t : String)
    (h : ∀ c ∈ t.toList, isJSWhitespace c = true) : jsTrim t = "" := by
  unfold jsTrim
  have h1 : t.toList.dropWhile isJSWhitespace = [] :=
    List.dropWhile_eq_nil_iff.mpr h
  rw [h1]
  rfl

/-- C5: submitting an empty or whitespace-only input issues no network
call, sets the fixed validation message, and leaves the held result, the
busy flag (which is never written), and the modal flag unchanged. -/
theorem handleAnalyze_blank_input (backend : Backend) (s : DemoState)
    (hws : ∀ c ∈ s.inputText.toList, isJSWhitespace c = true) :
    (handleAnalyze backend s).calls = []
      ∧ (handleAnalyze backend s).state.error = some validationMessage
      ∧ (handleAnalyze backend s).state.analysis = s.analysis
      ∧ (handleAnalyze backend s).state.loading = s.loading
      ∧ (handleAnalyze backend s).loadingSets = []
      ∧ (handleAnalyze backend s).state.showAttorneyModal = s.showAttorneyModal := by
  have hb := jsTrim_eq_empty_of_all_ws s.inputText hws
  simp [handleAnalyze, hb]

/-- Witness for C5 on a concrete whitespace-only state: no call goes out
and the prior result survives. -/
theorem handleAnalyze_blank_input_witness :
    (handleAnalyze okBackend blankState).calls = []
      ∧ (handleAnalyze okBackend blankState).state.error = some validationMessage
      ∧ (handleAnalyze okBackend blankState).state.analysis = some sampleAnalysis := by
  have h := handleAnalyze_blank_input okBackend blankState (by decide)
  exact ⟨h.1, h.2.1, h.2.2.1⟩

/-- C3: on a successful submission the orchestrator issues exactly the two
calls, extract then analyze, in order, and the `cir_graph` field of the
second call's body is exactly the first call's response body. -/
theorem handleAnalyze_two_sequential_calls (backend : Backend) (s : DemoState)
    (g : CirGraph) (r : CounterfactualAnalysis)
    (hblank : jsTrim s.inputText ≠ "")
    (hex : backend.extract (extractRequest s.inputText) = .ok g)
    (han : backend.analyze (analyzeRequest g) = .ok r) :
    (handleAnalyze backend s).calls
        = [ApiCall.extractCall (extractRequest s.inputText),
           ApiCall.analyzeCall (analyzeRequest g)]
      ∧ (analyzeRequest g).cir_graph = g := by
  refine ⟨?_, rfl⟩
  simp [handleAnalyze, hblank, hex, han]

/-- Witness for C3 with a concrete backend and state. -/
theorem handleAnalyze_two_sequential_calls_witness :
    (handleAnalyze okBackend startState).calls
        = [ApiCall.extractCall (extractRequest startState.inputText),
           ApiCall.analyzeCall
             (analyzeRequest { payload := startState.inputText })] :=
  (handleAnalyze_two_sequential_calls okBackend startState
    { payload := startState.inputText } sampleAnalysis
    (by decide) rfl rfl).1

/-- C4: when either call fails, the orchestrator surfaces the structured
detail message when one is present (and non-empty, per the JS truthiness
fallback), else the generic failure string; the loading flag is written
back to inactive exactly once; any partial result is discarded and the
previously held result and modal flag are unchanged. -/
theorem handleAnalyze_failure_handling (backend : Backend) (s : DemoState)
    (e : ApiError)
    (hblank : jsTrim s.inputText ≠ "")
    (hfail : backend.extract (extractRequest s.inputText) = .error e
      ∨ ∃ g, backend.extract (extractRequest s.inputText) = .ok g
          ∧ backend.analyze (analyzeRequest g) = .error e) :
    (∀ m, e.detail = some m → m ≠ "" →
        (handleAnalyze backend s).state.error = some m)
      ∧ ((e.detail = none ∨ e.detail = some "") →
          (handleAnalyze backend s).state.error = some genericFailureMessage)
      ∧ (handleAnalyze backend s).state.loading = false
      ∧ (handleAnalyze backend s).loadingSets.count false = 1
      ∧ (handleAnalyze backend s).state.analysis = s.analysis
      ∧ (handleAnalyze backend s).state.showAttorneyModal = s.showAttorneyModal := by
  have hrun : (handleAnalyze backend s).state.error = some (errorMessageOf e)
      ∧ (handleAnalyze backend s).state.loading = false
      ∧ (handleAnalyze backend s).loadingSets = [true, false]
      ∧ (handleAnalyze backend s).state.analysis = s.analysis
      ∧ (handleAnalyze backend s).state.showAttorneyModal = s.showAttorneyModal := by
    rcases hfail with hex | ⟨g, hex, han⟩
    · simp [handleAnalyze, hblank, hex]
    · simp [handleAnalyze, hblank, hex, han]
  refine ⟨?_, ?_, hrun.2.1, by rw [hrun.2.2.1]; rfl, hrun.2.2.2.1, hrun.2.2.2.2⟩
  · intro m hm hne
    rw [hrun.1]
    simp [errorMessageOf, hm, hne]
  · intro hd
    rw [hrun.1]
    rcases hd with hd | hd <;> simp [errorMessageOf, hd]

/-- Witness for C4: a failing extract call with a structured detail on a
concrete state; the message is surfaced, loading ends inactive after
exactly one deactivation, and the prior result is intact. -/
theorem handleAnalyze_failure_handling_witness :
    (handleAnalyze failingBackend startState).state.error
        = some "backend unavailable"
      ∧ (handleAnalyze failingBackend startState).state.loading = false
      ∧ (handleAnalyze failingBackend startState).loadingSets.count false = 1
      ∧ (handleAnalyze failingBackend startState).state.analysis
        = some sampleAnalysis := by
  have h := handleAnalyze_failure_handling failingBackend startState
    { detail := some "backend unavailable" } (by decide) (Or.inl rfl)
  exact ⟨h.1 "backend unavailable" rfl (by decide), h.2.2.1, h.2.2.2.1,
    h.2.2.2.2.1⟩

/-- C6: starting from a state in which the modal is closed (the only state
from which the submit control is reachable), a successfully applied result
makes the compliance modal visible exactly when
`attorney_referral.triggered` is true. -/
theorem attorneyModal_iff_triggered (backend : Backend) (s : DemoState)
    (g : CirGraph) (r : CounterfactualAnalysis)
    (hblank : jsTrim s.inputText ≠ "")
    (hmodal : s.showAttorneyModal = false)
    (hex : backend.extract (extractRequest s.inputText) = .ok g)
    (han : backend.analyze (analyzeRequest g) = .ok r) :
    (handleAnalyze backend s).state.analysis = some r
      ∧ ((handleAnalyze backend s).state.showAttorneyModal = true
          ↔ r.attorney_referral.triggered = true) := by
  cases htr : r.attorney_referral.triggered with
  | true => simp [handleAnalyze, hblank, hex, han, htr]
  | false => simp [handleAnalyze, hblank, hex, han, htr, hmodal]

/-- Witness for C6: the sample result has the referral triggered, and the
modal indeed opens. -/
theorem attorneyModal_iff_triggered_witness :
    (handleAnalyze okBackend startState).state.showAttorneyModal = true :=
  ((attorneyModal_iff_triggered okBackend startState
      { payload := startState.inputText } sampleAnalysis
      (by decide) rfl rfl rfl).2).mpr rfl

end CounterfactualFrontend
